import Mathlib

/-!
Verification of the `lib-nestjs-events` EventsService (src/src/events.service.ts)
against its natural-language specification.

The TypeScript service is shallowly embedded as pure Lean functions.  Each
async method becomes a function from an explicit service state (the mutable
fields of the class) and a broker environment (the amqplib client, modelled as
a record of outcome functions) to a `StepResult`: the returned or thrown value,
the updated state, and the list of observable actions (broker calls and log
lines) performed, in order.
-/

namespace LibNestjsEvents

/-- Model of a JavaScript JSON value (payloads handed to the service).
Numbers are modelled as integers; the claims under study do not depend on
floating-point behaviour. -/
inductive Json where
  | null : Json
  | bool (b : Bool) : Json
  | num (n : Int) : Json
  | str (s : String) : Json
  | arr (elems : List Json) : Json
  | obj (fields : List (String × Json)) : Json
deriving Repr

mutual

/-- Model of the JavaScript builtin JSON.stringify applied to a `Json` value
(the service calls it in sendToQueue and publishToExchange to produce the
message buffer). -/
def Json.stringify : Json → String
  | .null => "null"
  | .bool true => "true"
  | .bool false => "false"
  | .num n => toString n
  | .str s => "\"" ++ s ++ "\""
  | .arr elems => "[" ++ Json.stringifyArr elems ++ "]"
  | .obj fields => "\x7b" ++ Json.stringifyObj fields ++ "\x7d"

/-- Comma-separated serialization of a JSON array body. -/
def Json.stringifyArr : List Json → String
  | [] => ""
  | [x] => Json.stringify x
  | x :: xs => Json.stringify x ++ "," ++ Json.stringifyArr xs

/-- Comma-separated serialization of a JSON object body. -/
def Json.stringifyObj : List (String × Json) → String
  | [] => ""
  | [(k, v)] => "\"" ++ k ++ "\":" ++ Json.stringify v
  | (k, v) :: fs => "\"" ++ k ++ "\":" ++ Json.stringify v ++ "," ++ Json.stringifyObj fs

end

/-- The exchange type enumeration from interfaces/rabbitmq.interface.ts. -/
inductive ExchangeType where
  | direct | topic | fanout | headers
deriving DecidableEq, Repr

/-- RabbitMQConfig from interfaces/rabbitmq.interface.ts.  Optional fields
are `Option`; an absent field is `none`. -/
structure RabbitMQConfig where
  url : String
  queue : Option String := none
  exchange : Option String := none
  routingKey : Option String := none
  exchangeType : Option ExchangeType := none
  durable : Option Bool := none
  persistent : Option Bool := none
  prefetch : Option Nat := none
deriving DecidableEq, Repr

/-- EventsConfig from events.service.ts. -/
structure EventsConfig where
  rabbitmq : Option RabbitMQConfig := none
deriving DecidableEq, Repr

/-- Opaque handle for an amqplib Connection. -/
structure Connection where
  id : Nat
deriving DecidableEq, Repr

/-- Opaque handle for an amqplib Channel. -/
structure Channel where
  id : Nat
deriving DecidableEq, Repr

/-- MessageOptions from interfaces/rabbitmq.interface.ts.  The headers map is
left opaque (a string) since the service never inspects it. -/
structure MessageOptions where
  queue : Option String := none
  exchange : Option String := none
  routingKey : Option String := none
  persistent : Option Bool := none
  priority : Option Nat := none
  expiration : Option String := none
  headers : Option String := none
deriving DecidableEq, Repr

/-- The publish options object built in sendToQueue and publishToExchange:
`\x7b persistent: options?.persistent ?? true, ...options \x7d`.  After the
spread, `persistent` is the caller value when present and `true` otherwise;
all other caller fields are copied through. -/
structure ResolvedPublishOptions where
  persistent : Bool
  queue : Option String := none
  exchange : Option String := none
  routingKey : Option String := none
  priority : Option Nat := none
  expiration : Option String := none
  headers : Option String := none
deriving DecidableEq, Repr

/-- Evaluation of the publish-options object literal on a possibly-absent
caller options argument. -/
def mkPublishOptions (options : Option MessageOptions) : ResolvedPublishOptions :=
  let o := options.getD {}
  { persistent := o.persistent.getD true
    queue := o.queue
    exchange := o.exchange
    routingKey := o.routingKey
    priority := o.priority
    expiration := o.expiration
    headers := o.headers }

/-- QueueOptions from interfaces/rabbitmq.interface.ts (the arguments map is
left opaque). -/
structure QueueOptions where
  durable : Option Bool := none
  exclusive : Option Bool := none
  autoDelete : Option Bool := none
  arguments : Option String := none
deriving DecidableEq, Repr

/-- The queue options object built in createQueue:
`\x7b durable: true, ...options \x7d`. -/
structure ResolvedQueueOptions where
  durable : Bool
  exclusive : Option Bool := none
  autoDelete : Option Bool := none
  arguments : Option String := none
deriving DecidableEq, Repr

/-- Evaluation of the queue-options object literal. -/
def mkQueueOptions (options : Option QueueOptions) : ResolvedQueueOptions :=
  let o := options.getD {}
  { durable := o.durable.getD true
    exclusive := o.exclusive
    autoDelete := o.autoDelete
    arguments := o.arguments }

/-- ExchangeOptions from interfaces/rabbitmq.interface.ts; the type field is
required. -/
structure ExchangeOptions where
  type : ExchangeType
  durable : Option Bool := none
  autoDelete : Option Bool := none
  internal : Option Bool := none
  arguments : Option String := none
deriving DecidableEq, Repr

/-- The exchange options object built in createExchange:
`\x7b durable: true, ...options \x7d` (the spread also copies `type`). -/
structure ResolvedExchangeOptions where
  durable : Bool
  type : ExchangeType
  autoDelete : Option Bool := none
  internal : Option Bool := none
  arguments : Option String := none
deriving DecidableEq, Repr

/-- Evaluation of the exchange-options object literal. -/
def mkExchangeOptions (options : ExchangeOptions) : ResolvedExchangeOptions :=
  { durable := options.durable.getD true
    type := options.type
    autoDelete := options.autoDelete
    internal := options.internal
    arguments := options.arguments }

/-- ConsumeOptions from interfaces/rabbitmq.interface.ts. -/
structure ConsumeOptions where
  noAck : Option Bool := none
  exclusive : Option Bool := none
  priority : Option Nat := none
  consumerTag : Option String := none
  noLocal : Option Bool := none
  arguments : Option String := none
deriving DecidableEq, Repr

/-- The consume options object built in consume:
`\x7b noAck: false, ...options \x7d`. -/
structure ResolvedConsumeOptions where
  noAck : Bool
  exclusive : Option Bool := none
  priority : Option Nat := none
  consumerTag : Option String := none
  noLocal : Option Bool := none
  arguments : Option String := none
deriving DecidableEq, Repr

/-- Evaluation of the consume-options object literal. -/
def mkConsumeOptions (options : Option ConsumeOptions) : ResolvedConsumeOptions :=
  let o := options.getD {}
  { noAck := o.noAck.getD false
    exclusive := o.exclusive
    priority := o.priority
    consumerTag := o.consumerTag
    noLocal := o.noLocal
    arguments := o.arguments }

/-- An inbound amqplib message as delivered to the consume callback: a raw
content buffer (modelled as the string the buffer decodes to) plus opaque
fields and properties metadata. -/
structure RawMsg where
  content : String
  fields : String
  properties : String
deriving DecidableEq, Repr

/-- The messageInfo object the consume callback hands to the user handler:
decoded content plus the fields and properties of the originating message. -/
structure MessageInfo where
  content : Json
  fields : String
  properties : String
deriving Repr

/-- Observable actions of a service method, in execution order: calls into the
amqplib client and log lines.  Log actions record which logger call fired (the
attached error objects are not modelled). -/
inductive Action where
  | logInfo (msg : String)
  | logWarn (msg : String)
  | logError (msg : String)
  | connectAttempt (url : String)
  | createChannelCall
  | prefetchCall (count : Nat)
  | registerErrorObserver
  | registerCloseObserver
  | channelCloseCall
  | connectionCloseCall
  | sendToQueueOp (queue : String) (buffer : String) (options : ResolvedPublishOptions)
  | publishOp (exchange : String) (routingKey : String) (buffer : String) (options : ResolvedPublishOptions)
  | assertQueueOp (queue : String) (options : ResolvedQueueOptions)
  | assertExchangeOp (exchange : String) (type : ExchangeType) (options : ResolvedExchangeOptions)
  | consumeOp (queue : String) (options : ResolvedConsumeOptions)
  | ackOp (msg : RawMsg)
  | nackOp (msg : RawMsg) (allUpTo : Bool) (requeue : Bool)
  | rejectOp (msg : RawMsg) (requeue : Bool)
  | handlerInvoked (info : MessageInfo)
deriving Repr

/-- Actions that touch the broker client (anything other than a log line). -/
def Action.isBrokerOp : Action → Bool
  | .logInfo _ => false
  | .logWarn _ => false
  | .logError _ => false
  | .handlerInvoked _ => false
  | _ => true

/-- Actions that close a broker resource. -/
def Action.isCloseOp : Action → Bool
  | .channelCloseCall => true
  | .connectionCloseCall => true
  | _ => false

/-- Actions that dial the broker. -/
def Action.isConnectAttempt : Action → Bool
  | .connectAttempt _ => true
  | _ => false

/-- A JavaScript exception as thrown by the service or the broker client. -/
inductive JsError where
  | notConfigured
  | broker (e : String)
  | nullAssertion
deriving DecidableEq, Repr

/-- The amqplib client, modelled as a record of deterministic outcome
functions: each field gives the result of awaiting the corresponding client
call.  `jsonParse` models the JavaScript builtin JSON.parse on a decoded
buffer string. -/
structure BrokerEnv where
  connect : String → Except String Connection
  createChannel : Connection → Except String Channel
  prefetch : Channel → Nat → Except String Unit
  closeChannel : Channel → Except String Unit
  closeConnection : Connection → Except String Unit
  sendToQueue : Channel → String → String → ResolvedPublishOptions → Except String Bool
  publish : Channel → String → String → String → ResolvedPublishOptions → Except String Bool
  assertQueue : Channel → String → ResolvedQueueOptions → Except String Unit
  assertExchange : Channel → String → ExchangeType → ResolvedExchangeOptions → Except String Unit
  consume : Channel → String → ResolvedConsumeOptions → Except String String
  jsonParse : String → Except String Json

/-- The mutable fields of the EventsService class. -/
structure EventsService where
  connection : Option Connection
  channel : Option Channel
  config : EventsConfig
  rabbitMQEnabled : Bool
deriving Repr

/-- The EventsService constructor: `this.config = config || \x7b\x7d;
this.rabbitMQEnabled = !!this.config.rabbitmq`. -/
def EventsService.new (config : Option EventsConfig) : EventsService :=
  let c := config.getD {}
  { connection := none
    channel := none
    config := c
    rabbitMQEnabled := c.rabbitmq.isSome }

/-- Result of running one async method: the resolved value or thrown error,
the service state after the call, and the actions performed in order. -/
structure StepResult (α : Type) where
  result : Except JsError α
  state : EventsService
  actions : List Action
deriving Repr

/-- connectToRabbitMQ (events.service.ts lines 39 to 63).  Returns silently
when no rabbitmq config is present; otherwise dials, opens a channel, applies
prefetch when the configured count is truthy, registers the error and close
observers, and logs; on any client error it logs and rethrows, keeping the
state mutations already made. -/
def connectToRabbitMQ (env : BrokerEnv) (s : EventsService) : StepResult Unit :=
  match s.config.rabbitmq with
  | none => ⟨.ok (), s, []⟩
  | some cfg =>
    match env.connect cfg.url with
    | .error e =>
      ⟨.error (.broker e), s,
        [.connectAttempt cfg.url, .logError "Failed to connect to RabbitMQ:"]⟩
    | .ok conn =>
      let s1 := { s with connection := some conn }
      match env.createChannel conn with
      | .error e =>
        ⟨.error (.broker e), s1,
          [.connectAttempt cfg.url, .createChannelCall,
           .logError "Failed to connect to RabbitMQ:"]⟩
      | .ok ch =>
        let s2 := { s1 with channel := some ch }
        match cfg.prefetch with
        | some n =>
          if n ≠ 0 then
            match env.prefetch ch n with
            | .error e =>
              ⟨.error (.broker e), s2,
                [.connectAttempt cfg.url, .createChannelCall, .prefetchCall n,
                 .logError "Failed to connect to RabbitMQ:"]⟩
            | .ok _ =>
              ⟨.ok (), s2,
                [.connectAttempt cfg.url, .createChannelCall, .prefetchCall n,
                 .registerErrorObserver, .registerCloseObserver,
                 .logInfo "Connected to RabbitMQ successfully"]⟩
          else
            ⟨.ok (), s2,
              [.connectAttempt cfg.url, .createChannelCall,
               .registerErrorObserver, .registerCloseObserver,
               .logInfo "Connected to RabbitMQ successfully"]⟩
        | none =>
          ⟨.ok (), s2,
            [.connectAttempt cfg.url, .createChannelCall,
             .registerErrorObserver, .registerCloseObserver,
             .logInfo "Connected to RabbitMQ successfully"]⟩

/-- Body of the connection error observer registered in connectToRabbitMQ
(line 50): it only logs. -/
def onConnectionError (s : EventsService) : EventsService × List Action :=
  (s, [.logError "RabbitMQ connection error:"])

/-- Body of the connection close observer registered in connectToRabbitMQ
(line 54): it only logs a warning. -/
def onConnectionClose (s : EventsService) : EventsService × List Action :=
  (s, [.logWarn "RabbitMQ connection closed"])

/-- Second half of disconnect: the `if (this.connection)` block and the final
success log, with the actions accumulated so far. -/
def disconnectConn (env : BrokerEnv) (s : EventsService) (acc : List Action) :
    StepResult Unit :=
  match s.connection with
  | some conn =>
    match env.closeConnection conn with
    | .error _ =>
      ⟨.ok (), s, acc ++ [.connectionCloseCall,
        .logError "Error disconnecting from RabbitMQ:"]⟩
    | .ok _ =>
      ⟨.ok (), { s with connection := none },
        acc ++ [.connectionCloseCall, .logInfo "Disconnected from RabbitMQ"]⟩
  | none => ⟨.ok (), s, acc ++ [.logInfo "Disconnected from RabbitMQ"]⟩

/-- disconnect (events.service.ts lines 65 to 79).  Closes the channel, then
the connection, nulling each after a successful close; a thrown teardown error
is caught, logged and swallowed, skipping the rest of the try block. -/
def disconnect (env : BrokerEnv) (s : EventsService) : StepResult Unit :=
  match s.channel with
  | some ch =>
    match env.closeChannel ch with
    | .error _ =>
      ⟨.ok (), s, [.channelCloseCall,
        .logError "Error disconnecting from RabbitMQ:"]⟩
    | .ok _ => disconnectConn env { s with channel := none } [.channelCloseCall]
  | none => disconnectConn env s []

/-- ensureConnection (events.service.ts lines 81 to 88). -/
def ensureConnection (env : BrokerEnv) (s : EventsService) : StepResult Unit :=
  if s.rabbitMQEnabled = false then
    ⟨.error .notConfigured, s, []⟩
  else if s.connection.isNone || s.channel.isNone then
    connectToRabbitMQ env s
  else
    ⟨.ok (), s, []⟩

/-- onModuleInit (events.service.ts lines 29 to 33). -/
def onModuleInit (env : BrokerEnv) (s : EventsService) : StepResult Unit :=
  if s.rabbitMQEnabled && s.config.rabbitmq.isSome then
    connectToRabbitMQ env s
  else
    ⟨.ok (), s, []⟩

/-- onModuleDestroy (events.service.ts lines 35 to 37). -/
def onModuleDestroy (env : BrokerEnv) (s : EventsService) : StepResult Unit :=
  disconnect env s

/-- sendToQueue (events.service.ts lines 105 to 120).  Ensures a connection
(errors propagate), serializes the message, builds the publish options, and
delegates to the client; a client error is logged and rethrown.  The
dereference `this.channel!` on a null channel is modelled as a thrown
nullAssertion error (caught by the same catch block, hence logged). -/
def sendToQueue (env : BrokerEnv) (s : EventsService) (queueName : String)
    (message : Json) (options : Option MessageOptions) : StepResult Bool :=
  match ensureConnection env s with
  | ⟨.error e, s1, acts⟩ => ⟨.error e, s1, acts⟩
  | ⟨.ok _, s1, acts⟩ =>
    let messageBuffer := Json.stringify message
    let publishOptions := mkPublishOptions options
    match s1.channel with
    | none =>
      ⟨.error .nullAssertion, s1,
        acts ++ [.logError ("Error sending message to queue " ++ queueName ++ ":")]⟩
    | some ch =>
      match env.sendToQueue ch queueName messageBuffer publishOptions with
      | .ok b =>
        ⟨.ok b, s1, acts ++ [.sendToQueueOp queueName messageBuffer publishOptions]⟩
      | .error e =>
        ⟨.error (.broker e), s1,
          acts ++ [.sendToQueueOp queueName messageBuffer publishOptions,
            .logError ("Error sending message to queue " ++ queueName ++ ":")]⟩

/-- publishToExchange (events.service.ts lines 123 to 143), analogous to
sendToQueue with the publish client call. -/
def publishToExchange (env : BrokerEnv) (s : EventsService) (exchangeName : String)
    (routingKey : String) (message : Json) (options : Option MessageOptions) :
    StepResult Bool :=
  match ensureConnection env s with
  | ⟨.error e, s1, acts⟩ => ⟨.error e, s1, acts⟩
  | ⟨.ok _, s1, acts⟩ =>
    let messageBuffer := Json.stringify message
    let publishOptions := mkPublishOptions options
    match s1.channel with
    | none =>
      ⟨.error .nullAssertion, s1,
        acts ++ [.logError ("Error publishing message to exchange " ++ exchangeName ++ ":")]⟩
    | some ch =>
      match env.publish ch exchangeName routingKey messageBuffer publishOptions with
      | .ok b =>
        ⟨.ok b, s1,
          acts ++ [.publishOp exchangeName routingKey messageBuffer publishOptions]⟩
      | .error e =>
        ⟨.error (.broker e), s1,
          acts ++ [.publishOp exchangeName routingKey messageBuffer publishOptions,
            .logError ("Error publishing message to exchange " ++ exchangeName ++ ":")]⟩

/-- emitEvent (events.service.ts lines 91 to 102).  Logs the event, and when
RabbitMQ is enabled delegates to sendToQueue on the queue `events.` ++ name,
catching and logging any failure so the method itself always resolves. -/
def emitEvent (env : BrokerEnv) (s : EventsService) (eventName : String)
    (data : Json) (options : Option MessageOptions) : StepResult Unit :=
  let logAct := Action.logInfo ("Event emitted: " ++ eventName)
  if s.rabbitMQEnabled then
    match sendToQueue env s ("events." ++ eventName) data options with
    | ⟨.ok _, s1, acts⟩ => ⟨.ok (), s1, logAct :: acts⟩
    | ⟨.error _, s1, acts⟩ =>
      ⟨.ok (), s1, logAct :: (acts ++
        [.logError ("Failed to send event " ++ eventName ++ " to RabbitMQ:")])⟩
  else
    ⟨.ok (), s, [logAct]⟩

/-- createQueue (events.service.ts lines 146 to 155). -/
def createQueue (env : BrokerEnv) (s : EventsService) (queueName : String)
    (options : Option QueueOptions) : StepResult Unit :=
  match ensureConnection env s with
  | ⟨.error e, s1, acts⟩ => ⟨.error e, s1, acts⟩
  | ⟨.ok _, s1, acts⟩ =>
    let queueOptions := mkQueueOptions options
    match s1.channel with
    | none => ⟨.error .nullAssertion, s1, acts⟩
    | some ch =>
      match env.assertQueue ch queueName queueOptions with
      | .ok _ => ⟨.ok (), s1, acts ++ [.assertQueueOp queueName queueOptions]⟩
      | .error e =>
        ⟨.error (.broker e), s1, acts ++ [.assertQueueOp queueName queueOptions]⟩

/-- createExchange (events.service.ts lines 158 to 167). -/
def createExchange (env : BrokerEnv) (s : EventsService) (exchangeName : String)
    (options : ExchangeOptions) : StepResult Unit :=
  match ensureConnection env s with
  | ⟨.error e, s1, acts⟩ => ⟨.error e, s1, acts⟩
  | ⟨.ok _, s1, acts⟩ =>
    let exchangeOptions := mkExchangeOptions options
    match s1.channel with
    | none => ⟨.error .nullAssertion, s1, acts⟩
    | some ch =>
      match env.assertExchange ch exchangeName options.type exchangeOptions with
      | .ok _ =>
        ⟨.ok (), s1, acts ++ [.assertExchangeOp exchangeName options.type exchangeOptions]⟩
      | .error e =>
        ⟨.error (.broker e), s1,
          acts ++ [.assertExchangeOp exchangeName options.type exchangeOptions]⟩

/-- consume (events.service.ts lines 170 to 209): ensures a connection,
builds the consume options, registers the per-delivery callback with the
client, and returns the consumer tag.  The behaviour of the registered
callback itself is modelled by `consumeCallback`. -/
def consume (env : BrokerEnv) (s : EventsService) (queueName : String)
    (options : Option ConsumeOptions) : StepResult String :=
  match ensureConnection env s with
  | ⟨.error e, s1, acts⟩ => ⟨.error e, s1, acts⟩
  | ⟨.ok _, s1, acts⟩ =>
    let consumeOptions := mkConsumeOptions options
    match s1.channel with
    | none => ⟨.error .nullAssertion, s1, acts⟩
    | some ch =>
      match env.consume ch queueName consumeOptions with
      | .ok tag => ⟨.ok tag, s1, acts ++ [.consumeOp queueName consumeOptions]⟩
      | .error e =>
        ⟨.error (.broker e), s1, acts ++ [.consumeOp queueName consumeOptions]⟩

/-- A callback call the user handler makes synchronously: the ack callable, or
the nack callable with its requeue argument (a call using the default is
`nack false`). -/
inductive CbCall where
  | ack
  | nack (requeue : Bool)
deriving DecidableEq, Repr

/-- How one synchronous invocation of the user handler ends: a normal return
(whose eventual promise outcome, rejected or not, is recorded but not awaited
by the callback), or a synchronous throw. -/
inductive HandlerOutcome where
  | returns (asyncRejects : Bool)
  | throwsEx (e : String)
deriving Repr

/-- One synchronous run of the user handler: the callback calls it makes, in
order, and how it ends. -/
structure HandlerRun where
  calls : List CbCall
  outcome : HandlerOutcome

/-- The user handler, modelled by what it does when invoked on a messageInfo
object. -/
def MessageHandler : Type := MessageInfo → HandlerRun

/-- Interpretation of a callback call made by the handler against the message
it is bound to: ack acknowledges that message; nack with requeue true nacks it
for redelivery; nack with requeue false rejects it without requeue (lines 192
to 199). -/
def interpretCall (msg : RawMsg) : CbCall → Action
  | .ack => .ackOp msg
  | .nack true => .nackOp msg false true
  | .nack false => .rejectOp msg false

/-- The per-delivery callback consume registers (events.service.ts lines 182
to 205), as the list of actions it performs for one delivery.  A null message
is ignored.  Otherwise the content is parsed; a parse failure is caught,
logged, and the message rejected without requeue.  On success the handler is
invoked with the decoded messageInfo and the bound ack and nack callables; a
synchronous handler throw is caught by the same catch block (log, then reject
without requeue), while a normal return ends the callback with no further
action, the returned promise being discarded unawaited. -/
def consumeCallback (parse : String → Except String Json)
    (handler : MessageHandler) (msg : Option RawMsg) : List Action :=
  match msg with
  | none => []
  | some m =>
    match parse m.content with
    | .error _ => [.logError "Error processing message:", .rejectOp m false]
    | .ok content =>
      let messageInfo : MessageInfo := ⟨content, m.fields, m.properties⟩
      let run := handler messageInfo
      match run.outcome with
      | .returns _ =>
        .handlerInvoked messageInfo :: run.calls.map (interpretCall m)
      | .throwsEx _ =>
        .handlerInvoked messageInfo :: run.calls.map (interpretCall m) ++
          [.logError "Error processing message:", .rejectOp m false]

/-- isConnected (events.service.ts lines 212 to 214): a pure read of the
cached fields, performing no broker call. -/
def isConnected (s : EventsService) : Bool :=
  s.rabbitMQEnabled && s.connection.isSome && s.channel.isSome

/-- isRabbitMQEnabled (events.service.ts lines 217 to 219). -/
def isRabbitMQEnabled (s : EventsService) : Bool :=
  s.rabbitMQEnabled

/-- Number of dial attempts in an action list. -/
def countConnectAttempts : List Action → Nat
  | [] => 0
  | a :: rest => (if a.isConnectAttempt then 1 else 0) + countConnectAttempts rest

/-- The message a consumer-side acknowledgement action refers to, when the
action is one. -/
def Action.deliveryMsg : Action → Option RawMsg
  | .ackOp m => some m
  | .nackOp m _ _ => some m
  | .rejectOp m _ => some m
  | _ => none

/-- States of the service reachable from construction with a given config
argument, by any sequence of public method calls, lifecycle hooks, and firings
of the registered connection observers, under arbitrary broker behaviour. -/
inductive ReachableFrom (config : Option EventsConfig) : EventsService → Prop where
  | init : ReachableFrom config (EventsService.new config)
  | moduleInitStep {s : EventsService} (env : BrokerEnv) :
      ReachableFrom config s → ReachableFrom config (onModuleInit env s).state
  | moduleDestroyStep {s : EventsService} (env : BrokerEnv) :
      ReachableFrom config s → ReachableFrom config (onModuleDestroy env s).state
  | ensureStep {s : EventsService} (env : BrokerEnv) :
      ReachableFrom config s → ReachableFrom config (ensureConnection env s).state
  | emitStep {s : EventsService} (env : BrokerEnv) (name : String) (data : Json)
      (options : Option MessageOptions) :
      ReachableFrom config s → ReachableFrom config (emitEvent env s name data options).state
  | sendStep {s : EventsService} (env : BrokerEnv) (queue : String) (data : Json)
      (options : Option MessageOptions) :
      ReachableFrom config s → ReachableFrom config (sendToQueue env s queue data options).state
  | publishStep {s : EventsService} (env : BrokerEnv) (exchange routingKey : String)
      (data : Json) (options : Option MessageOptions) :
      ReachableFrom config s →
      ReachableFrom config (publishToExchange env s exchange routingKey data options).state
  | createQueueStep {s : EventsService} (env : BrokerEnv) (queue : String)
      (options : Option QueueOptions) :
      ReachableFrom config s → ReachableFrom config (createQueue env s queue options).state
  | createExchangeStep {s : EventsService} (env : BrokerEnv) (exchange : String)
      (options : ExchangeOptions) :
      ReachableFrom config s → ReachableFrom config (createExchange env s exchange options).state
  | consumeStep {s : EventsService} (env : BrokerEnv) (queue : String)
      (options : Option ConsumeOptions) :
      ReachableFrom config s → ReachableFrom config (consume env s queue options).state
  | errorObserverStep {s : EventsService} :
      ReachableFrom config s → ReachableFrom config (onConnectionError s).1
  | closeObserverStep {s : EventsService} :
      ReachableFrom config s → ReachableFrom config (onConnectionClose s).1

/-- A broker profile like the README example, used as concrete test input. -/
def testConfig : RabbitMQConfig :=
  { url := "amqp://localhost:5672" }

/-- A service config enabling RabbitMQ with `testConfig`. -/
def testEventsConfig : EventsConfig :=
  { rabbitmq := some testConfig }

/-- A broker environment on which every client call succeeds. -/
def testEnv : BrokerEnv :=
  { connect := fun _ => .ok ⟨0⟩
    createChannel := fun _ => .ok ⟨0⟩
    prefetch := fun _ _ => .ok ()
    closeChannel := fun _ => .ok ()
    closeConnection := fun _ => .ok ()
    sendToQueue := fun _ _ _ _ => .ok true
    publish := fun _ _ _ _ _ => .ok true
    assertQueue := fun _ _ _ => .ok ()
    assertExchange := fun _ _ _ _ => .ok ()
    consume := fun _ _ _ => .ok "amq.ctag-test"
    jsonParse := fun s => if s = "null" then .ok .null else .error "SyntaxError" }

/-- A broker environment where closing the channel throws. -/
def testEnvBadClose : BrokerEnv :=
  { testEnv with closeChannel := fun _ => .error "channel close failed" }

/-- A broker environment where dialing fails. -/
def testEnvUnreachable : BrokerEnv :=
  { testEnv with connect := fun _ => .error "ECONNREFUSED" }

/-- The state of an enabled service right after a successful onModuleInit
against `testEnv`: both handles cached. -/
def testConnectedState : EventsService :=
  (onModuleInit testEnv (EventsService.new (some testEventsConfig))).state

/-- A concrete inbound message whose content parses under
`testEnv.jsonParse`. -/
def testGoodMsg : RawMsg :=
  { content := "null", fields := "f", properties := "p" }

/-- A concrete inbound message whose content fails to parse under
`testEnv.jsonParse`. -/
def testBadMsg : RawMsg :=
  { content := "not json", fields := "f", properties := "p" }

/-- A concrete handler that acks its delivery and returns normally. -/
def testHandler : MessageHandler :=
  fun _ => { calls := [.ack], outcome := .returns false }

/-- A concrete handler that throws synchronously before using any callback. -/
def testThrowingHandler : MessageHandler :=
  fun _ => { calls := [], outcome := .throwsEx "boom" }

/-! ## Helper lemmas -/

/-- connectToRabbitMQ never changes the config or the enabled flag. -/
theorem connectToRabbitMQ_flags (env : BrokerEnv) (s : EventsService) :
    (connectToRabbitMQ env s).state.config = s.config ∧
    (connectToRabbitMQ env s).state.rabbitMQEnabled = s.rabbitMQEnabled := by
  unfold connectToRabbitMQ
  (repeat' split) <;> simp

/-- ensureConnection never changes the config or the enabled flag. -/
theorem ensureConnection_flags (env : BrokerEnv) (s : EventsService) :
    (ensureConnection env s).state.config = s.config ∧
    (ensureConnection env s).state.rabbitMQEnabled = s.rabbitMQEnabled := by
  unfold ensureConnection
  (repeat' split) <;> simp [connectToRabbitMQ_flags]

/-- disconnectConn never changes the config, the enabled flag, or the cached
channel. -/
theorem disconnectConn_flags (env : BrokerEnv) (s : EventsService) (acc : List Action) :
    (disconnectConn env s acc).state.config = s.config ∧
    (disconnectConn env s acc).state.rabbitMQEnabled = s.rabbitMQEnabled ∧
    (disconnectConn env s acc).state.channel = s.channel := by
  unfold disconnectConn
  (repeat' split) <;> simp

/-- disconnect never changes the config or the enabled flag. -/
theorem disconnect_flags (env : BrokerEnv) (s : EventsService) :
    (disconnect env s).state.config = s.config ∧
    (disconnect env s).state.rabbitMQEnabled = s.rabbitMQEnabled := by
  unfold disconnect
  (repeat' split) <;> simp [disconnectConn_flags]

/-- onModuleInit never changes the config or the enabled flag. -/
theorem onModuleInit_flags (env : BrokerEnv) (s : EventsService) :
    (onModuleInit env s).state.config = s.config ∧
    (onModuleInit env s).state.rabbitMQEnabled = s.rabbitMQEnabled := by
  unfold onModuleInit
  split <;> simp [connectToRabbitMQ_flags]

/-- sendToQueue leaves the state exactly where ensureConnection left it. -/
theorem sendToQueue_state (env : BrokerEnv) (s : EventsService) (q : String)
    (m : Json) (o : Option MessageOptions) :
    (sendToQueue env s q m o).state = (ensureConnection env s).state := by
  unfold sendToQueue
  dsimp only
  (repeat' split) <;> simp_all

/-- publishToExchange leaves the state exactly where ensureConnection left it. -/
theorem publishToExchange_state (env : BrokerEnv) (s : EventsService)
    (ex rk : String) (m : Json) (o : Option MessageOptions) :
    (publishToExchange env s ex rk m o).state = (ensureConnection env s).state := by
  unfold publishToExchange
  dsimp only
  (repeat' split) <;> simp_all

/-- createQueue leaves the state exactly where ensureConnection left it. -/
theorem createQueue_state (env : BrokerEnv) (s : EventsService) (q : String)
    (o : Option QueueOptions) :
    (createQueue env s q o).state = (ensureConnection env s).state := by
  unfold createQueue
  dsimp only
  (repeat' split) <;> simp_all

/-- createExchange leaves the state exactly where ensureConnection left it. -/
theorem createExchange_state (env : BrokerEnv) (s : EventsService) (ex : String)
    (o : ExchangeOptions) :
    (createExchange env s ex o).state = (ensureConnection env s).state := by
  unfold createExchange
  dsimp only
  (repeat' split) <;> simp_all

/-- consume leaves the state exactly where ensureConnection left it. -/
theorem consume_state (env : BrokerEnv) (s : EventsService) (q : String)
    (o : Option ConsumeOptions) :
    (consume env s q o).state = (ensureConnection env s).state := by
  unfold consume
  dsimp only
  (repeat' split) <;> simp_all

/-- emitEvent leaves the state where the delegated sendToQueue left it, or
unchanged when disabled. -/
theorem emitEvent_state (env : BrokerEnv) (s : EventsService) (name : String)
    (data : Json) (o : Option MessageOptions) :
    (emitEvent env s name data o).state =
      (if s.rabbitMQEnabled then (sendToQueue env s ("events." ++ name) data o).state
       else s) := by
  unfold emitEvent
  (repeat' split) <;> simp_all

/-- Reachable states keep the constructor-resolved config and the enabled
flag computed from it: the two fields are never reassigned. -/
theorem reachable_flags {config : Option EventsConfig} {s : EventsService}
    (h : ReachableFrom config s) :
    s.config = config.getD {} ∧
    s.rabbitMQEnabled = (config.getD {}).rabbitmq.isSome := by
  induction h with
  | init => simp [EventsService.new]
  | moduleInitStep env _ ih =>
    exact ⟨(onModuleInit_flags ..).1.trans ih.1, (onModuleInit_flags ..).2.trans ih.2⟩
  | moduleDestroyStep env _ ih =>
    exact ⟨(disconnect_flags ..).1.trans ih.1, (disconnect_flags ..).2.trans ih.2⟩
  | ensureStep env _ ih =>
    exact ⟨(ensureConnection_flags ..).1.trans ih.1, (ensureConnection_flags ..).2.trans ih.2⟩
  | emitStep env name data options _ ih =>
    refine ⟨?_, ?_⟩ <;>
      · rw [emitEvent_state]
        split
        · rw [sendToQueue_state]
          first
          | exact (ensureConnection_flags ..).1.trans ih.1
          | exact (ensureConnection_flags ..).2.trans ih.2
        · first | exact ih.1 | exact ih.2
  | sendStep env queue data options _ ih =>
    rw [sendToQueue_state]
    exact ⟨(ensureConnection_flags ..).1.trans ih.1, (ensureConnection_flags ..).2.trans ih.2⟩
  | publishStep env exchange routingKey data options _ ih =>
    rw [publishToExchange_state]
    exact ⟨(ensureConnection_flags ..).1.trans ih.1, (ensureConnection_flags ..).2.trans ih.2⟩
  | createQueueStep env queue options _ ih =>
    rw [createQueue_state]
    exact ⟨(ensureConnection_flags ..).1.trans ih.1, (ensureConnection_flags ..).2.trans ih.2⟩
  | createExchangeStep env exchange options _ ih =>
    rw [createExchange_state]
    exact ⟨(ensureConnection_flags ..).1.trans ih.1, (ensureConnection_flags ..).2.trans ih.2⟩
  | consumeStep env queue options _ ih =>
    rw [consume_state]
    exact ⟨(ensureConnection_flags ..).1.trans ih.1, (ensureConnection_flags ..).2.trans ih.2⟩
  | errorObserverStep _ ih => exact ih
  | closeObserverStep _ ih => exact ih

/-- Whenever connectToRabbitMQ resolves without throwing on a state that has
a broker profile, both handles are cached. -/
theorem connectToRabbitMQ_ok_handles (env : BrokerEnv) (s : EventsService)
    (hcfg : s.config.rabbitmq.isSome)
    (hok : (connectToRabbitMQ env s).result = .ok ()) :
    (connectToRabbitMQ env s).state.connection.isSome ∧
    (connectToRabbitMQ env s).state.channel.isSome := by
  unfold connectToRabbitMQ at hok ⊢
  (repeat' split) <;> simp_all

/-- connectToRabbitMQ only throws broker errors. -/
theorem connectToRabbitMQ_no_nullAssertion (env : BrokerEnv) (s : EventsService) :
    (connectToRabbitMQ env s).result ≠ .error .nullAssertion := by
  unfold connectToRabbitMQ
  (repeat' split) <;> simp

/-- ensureConnection only throws the not-configured error or broker errors. -/
theorem ensureConnection_no_nullAssertion (env : BrokerEnv) (s : EventsService) :
    (ensureConnection env s).result ≠ .error .nullAssertion := by
  unfold ensureConnection
  (repeat' split) <;> simp [connectToRabbitMQ_no_nullAssertion]

/-- Whenever ensureConnection resolves without throwing on a state whose
enabled flag implies a stored profile, both handles are cached afterwards. -/
theorem ensureConnection_ok_handles (env : BrokerEnv) (s : EventsService)
    (hcfg : s.rabbitMQEnabled = true → s.config.rabbitmq.isSome)
    (hok : (ensureConnection env s).result = .ok ()) :
    (ensureConnection env s).state.connection.isSome ∧
    (ensureConnection env s).state.channel.isSome := by
  unfold ensureConnection at hok ⊢
  by_cases hen : s.rabbitMQEnabled = false
  · rw [if_pos hen] at hok
    exact absurd hok (by simp)
  · rw [if_neg hen] at hok ⊢
    by_cases hmiss : (s.connection.isNone || s.channel.isNone) = true
    · rw [if_pos hmiss] at hok ⊢
      refine connectToRabbitMQ_ok_handles env s ?_ hok
      exact hcfg (by revert hen; cases s.rabbitMQEnabled <;> simp)
    · rw [if_neg hmiss] at hok ⊢
      cases hc : s.connection <;> cases hch : s.channel <;> simp_all

/-- connectToRabbitMQ on a state with a stored profile dials exactly once,
and a dial failure is rethrown to the caller. -/
theorem connectToRabbitMQ_dial (env : BrokerEnv) (s : EventsService)
    (cfg : RabbitMQConfig) (hcfg : s.config.rabbitmq = some cfg) :
    countConnectAttempts (connectToRabbitMQ env s).actions = 1 ∧
    (∀ e, env.connect cfg.url = .error e →
      (connectToRabbitMQ env s).result = .error (.broker e)) := by
  unfold connectToRabbitMQ
  (repeat' split) <;>
    simp_all [countConnectAttempts, Action.isConnectAttempt]

/-- connectToRabbitMQ emits no queue-send action. -/
theorem connectToRabbitMQ_no_send (env : BrokerEnv) (s : EventsService)
    (q b : String) (po : ResolvedPublishOptions) :
    Action.sendToQueueOp q b po ∉ (connectToRabbitMQ env s).actions := by
  unfold connectToRabbitMQ
  (repeat' split) <;> simp

/-- ensureConnection emits no queue-send action. -/
theorem ensureConnection_no_send (env : BrokerEnv) (s : EventsService)
    (q b : String) (po : ResolvedPublishOptions) :
    Action.sendToQueueOp q b po ∉ (ensureConnection env s).actions := by
  unfold ensureConnection
  (repeat' split) <;> simp [connectToRabbitMQ_no_send]

/-- Every queue-send action emitted by sendToQueue carries the method
arguments: the target queue, the serialized payload, and the resolved publish
options. -/
theorem sendToQueue_send_chars (env : BrokerEnv) (s : EventsService)
    (q : String) (m : Json) (o : Option MessageOptions) :
    ∀ q' b po, Action.sendToQueueOp q' b po ∈ (sendToQueue env s q m o).actions →
      q' = q ∧ b = Json.stringify m ∧ po = mkPublishOptions o := by
  intro q' b po
  unfold sendToQueue
  dsimp only
  split
  · rename_i e s1 acts h
    intro hmem
    have h2 := ensureConnection_no_send env s q' b po
    rw [h] at h2
    exact absurd hmem h2
  · rename_i u s1 acts h
    have hno : Action.sendToQueueOp q' b po ∉ acts := by
      have h2 := ensureConnection_no_send env s q' b po
      rw [h] at h2
      exact h2
    split
    · intro hmem
      rcases List.mem_append.mp hmem with h1 | h1
      · exact absurd h1 hno
      · simp at h1
    · split
      · intro hmem
        rcases List.mem_append.mp hmem with h1 | h1
        · exact absurd h1 hno
        · simpa using h1
      · intro hmem
        rcases List.mem_append.mp hmem with h1 | h1
        · exact absurd h1 hno
        · simpa using h1

/-- connectToRabbitMQ emits no exchange-publish action. -/
theorem connectToRabbitMQ_no_publish (env : BrokerEnv) (s : EventsService)
    (ex rk b : String) (po : ResolvedPublishOptions) :
    Action.publishOp ex rk b po ∉ (connectToRabbitMQ env s).actions := by
  unfold connectToRabbitMQ
  (repeat' split) <;> simp

/-- ensureConnection emits no exchange-publish action. -/
theorem ensureConnection_no_publish (env : BrokerEnv) (s : EventsService)
    (ex rk b : String) (po : ResolvedPublishOptions) :
    Action.publishOp ex rk b po ∉ (ensureConnection env s).actions := by
  unfold ensureConnection
  (repeat' split) <;> simp [connectToRabbitMQ_no_publish]

/-- Every exchange-publish action emitted by publishToExchange carries the
method arguments. -/
theorem publishToExchange_chars (env : BrokerEnv) (s : EventsService)
    (ex rk : String) (m : Json) (o : Option MessageOptions) :
    ∀ ex' rk' b po,
      Action.publishOp ex' rk' b po ∈ (publishToExchange env s ex rk m o).actions →
      ex' = ex ∧ rk' = rk ∧ b = Json.stringify m ∧ po = mkPublishOptions o := by
  intro ex' rk' b po
  unfold publishToExchange
  dsimp only
  split
  · rename_i e s1 acts h
    intro hmem
    have h2 := ensureConnection_no_publish env s ex' rk' b po
    rw [h] at h2
    exact absurd hmem h2
  · rename_i u s1 acts h
    have hno : Action.publishOp ex' rk' b po ∉ acts := by
      have h2 := ensureConnection_no_publish env s ex' rk' b po
      rw [h] at h2
      exact h2
    split
    · intro hmem
      rcases List.mem_append.mp hmem with h1 | h1
      · exact absurd h1 hno
      · simp at h1
    · split
      · intro hmem
        rcases List.mem_append.mp hmem with h1 | h1
        · exact absurd h1 hno
        · simpa using h1
      · intro hmem
        rcases List.mem_append.mp hmem with h1 | h1
        · exact absurd h1 hno
        · simpa using h1

/-- connectToRabbitMQ with a stored profile always emits the dial action, and
once the dial succeeds also the channel-open action; when the channel open
succeeds, the freshly created channel is the one cached. -/
theorem connectToRabbitMQ_progress (env : BrokerEnv) (s : EventsService)
    (cfg : RabbitMQConfig) (hcfg : s.config.rabbitmq = some cfg) :
    Action.connectAttempt cfg.url ∈ (connectToRabbitMQ env s).actions ∧
    (∀ conn, env.connect cfg.url = .ok conn →
      Action.createChannelCall ∈ (connectToRabbitMQ env s).actions ∧
      (connectToRabbitMQ env s).state.connection = some conn ∧
      (∀ ch, env.createChannel conn = .ok ch →
        (connectToRabbitMQ env s).state.channel = some ch)) := by
  unfold connectToRabbitMQ
  (repeat' split) <;> simp_all

/-- When teardown does not fail on the channel close, disconnect always
clears the cached channel. -/
theorem disconnect_channel_none (env : BrokerEnv) (s : EventsService)
    (hclose : ∀ ch, s.channel = some ch → env.closeChannel ch = .ok ()) :
    (disconnect env s).state.channel = none := by
  unfold disconnect
  split
  · rename_i ch hch
    split
    · rename_i e he
      exact absurd (hclose ch hch) (by simp [he])
    · exact (disconnectConn_flags ..).2.2
  · rename_i hch
    rw [(disconnectConn_flags ..).2.2]
    exact hch

/-- On an enabled state with no cached channel, ensureConnection takes the
dial branch. -/
theorem ensureConnection_redial (env : BrokerEnv) (s : EventsService)
    (hen : s.rabbitMQEnabled = true) (hch : s.channel = none) :
    ensureConnection env s = connectToRabbitMQ env s := by
  unfold ensureConnection
  rw [if_neg (by simp [hen]), if_pos (by simp [hch])]

/-- Every consumer acknowledgement action produced by interpreting a handler
callback call refers to the delivery it was bound to. -/
theorem interpretCall_bound (m : RawMsg) (c : CbCall) :
    (interpretCall m c).deliveryMsg = some m := by
  cases c with
  | ack => rfl
  | nack requeue => cases requeue <;> rfl

/-- Whenever ensureConnection resolves on a state whose enabled flag implies
a stored profile, the resulting state caches a channel. -/
theorem ensure_ok_channel_some (env : BrokerEnv) (s : EventsService)
    (hcfg : s.rabbitMQEnabled = true → s.config.rabbitmq.isSome)
    {u : Unit} {s1 : EventsService} {acts : List Action}
    (h : ensureConnection env s = ⟨.ok u, s1, acts⟩) : s1.channel.isSome := by
  have h2 := ensureConnection_ok_handles env s hcfg (by rw [h])
  rw [h] at h2
  exact h2.2

/-! ## Claim theorems -/

/-- C7: in every reachable state of the service, isRabbitMQEnabled reports
exactly whether a rabbitmq profile was supplied at construction (independent
of current connectivity), isConnected is true exactly when the service is
enabled and both cached handles are present (a pure read of the state,
performing no broker call and hence no connection attempt), and consequently
isConnected is false whenever isRabbitMQEnabled is false. -/
theorem c7_status_queries (config : Option EventsConfig) (s : EventsService)
    (hr : ReachableFrom config s) :
    isRabbitMQEnabled s = (config.getD {}).rabbitmq.isSome ∧
    (isConnected s = true ↔
      isRabbitMQEnabled s = true ∧ s.connection.isSome ∧ s.channel.isSome) ∧
    (isRabbitMQEnabled s = false → isConnected s = false) := by
  have hinv := reachable_flags hr
  refine ⟨hinv.2, ?_, ?_⟩
  · simp [isConnected, isRabbitMQEnabled, Bool.and_eq_true, and_assoc]
  · intro h
    simp only [isRabbitMQEnabled] at h
    simp [isConnected, h]

/-- C3: on every reachable state, ensureConnection fails with the
not-configured error, touching nothing, when no broker profile was supplied;
returns immediately without re-dialing when both a connection and a channel
are cached; and otherwise dials exactly once, a dial failure propagating to
the caller with no automatic retry. -/
theorem c3_ensureConnection_contract (config : Option EventsConfig)
    (env : BrokerEnv) (s : EventsService) (hr : ReachableFrom config s) :
    ((config.getD {}).rabbitmq = none →
      ensureConnection env s = ⟨.error .notConfigured, s, []⟩) ∧
    (s.rabbitMQEnabled = true → s.connection.isSome → s.channel.isSome →
      ensureConnection env s = ⟨.ok (), s, []⟩) ∧
    (s.rabbitMQEnabled = true → (s.connection.isNone || s.channel.isNone) = true →
      countConnectAttempts (ensureConnection env s).actions = 1 ∧
      ∀ cfg e, (config.getD {}).rabbitmq = some cfg → env.connect cfg.url = .error e →
        (ensureConnection env s).result = .error (.broker e)) := by
  have hinv := reachable_flags hr
  refine ⟨?_, ?_, ?_⟩
  · intro hnone
    have hen : s.rabbitMQEnabled = false := by rw [hinv.2, hnone]; rfl
    unfold ensureConnection
    rw [if_pos (by rw [hen])]
  · intro hen hc hch
    obtain ⟨c, hc2⟩ := Option.isSome_iff_exists.mp hc
    obtain ⟨d, hch2⟩ := Option.isSome_iff_exists.mp hch
    simp [ensureConnection, hen, hc2, hch2]
  · intro hen hmiss
    have hcfg : s.config.rabbitmq.isSome := by
      rw [hinv.1, ← hinv.2]
      exact hen
    obtain ⟨cfg0, hcfg0⟩ := Option.isSome_iff_exists.mp hcfg
    have heq : ensureConnection env s = connectToRabbitMQ env s := by
      unfold ensureConnection
      rw [if_neg (by simp [hen]), if_pos hmiss]
    rw [heq]
    refine ⟨(connectToRabbitMQ_dial env s cfg0 hcfg0).1, ?_⟩
    intro cfg e hcfgeq hconn
    have hsame : cfg0 = cfg := by
      rw [hinv.1, hcfgeq] at hcfg0
      exact (Option.some_inj.mp hcfg0).symm
    exact (connectToRabbitMQ_dial env s cfg0 hcfg0).2 e (hsame ▸ hconn)

/-- C9: on every reachable state, whenever ensureConnection resolves without
throwing, both cached handles are present afterwards, and consequently none
of the five channel-using operations can fail by dereferencing an absent
channel on the access right after their ensureConnection call. -/
theorem c9_no_null_channel_assertions (config : Option EventsConfig)
    (env : BrokerEnv) (s : EventsService) (q ex rk qn : String) (m : Json)
    (mo : Option MessageOptions) (qo : Option QueueOptions) (eo : ExchangeOptions)
    (co : Option ConsumeOptions) (hr : ReachableFrom config s) :
    ((ensureConnection env s).result = .ok () →
      (ensureConnection env s).state.connection.isSome ∧
      (ensureConnection env s).state.channel.isSome) ∧
    (sendToQueue env s q m mo).result ≠ .error .nullAssertion ∧
    (publishToExchange env s ex rk m mo).result ≠ .error .nullAssertion ∧
    (createQueue env s q qo).result ≠ .error .nullAssertion ∧
    (createExchange env s ex eo).result ≠ .error .nullAssertion ∧
    (consume env s qn co).result ≠ .error .nullAssertion := by
  have hinv := reachable_flags hr
  have hcfg : s.rabbitMQEnabled = true → s.config.rabbitmq.isSome := by
    intro h
    rw [hinv.1, ← hinv.2]
    exact h
  refine ⟨fun hok => ensureConnection_ok_handles env s hcfg hok, ?_, ?_, ?_, ?_, ?_⟩
  · unfold sendToQueue
    dsimp only
    split
    · rename_i e s1 acts h
      have h2 := ensureConnection_no_nullAssertion env s
      rw [h] at h2
      simpa using h2
    · rename_i u s1 acts h
      have hch := ensure_ok_channel_some env s hcfg h
      split
      · rename_i hnone
        rw [hnone] at hch
        simp at hch
      · split <;> simp
  · unfold publishToExchange
    dsimp only
    split
    · rename_i e s1 acts h
      have h2 := ensureConnection_no_nullAssertion env s
      rw [h] at h2
      simpa using h2
    · rename_i u s1 acts h
      have hch := ensure_ok_channel_some env s hcfg h
      split
      · rename_i hnone
        rw [hnone] at hch
        simp at hch
      · split <;> simp
  · unfold createQueue
    dsimp only
    split
    · rename_i e s1 acts h
      have h2 := ensureConnection_no_nullAssertion env s
      rw [h] at h2
      simpa using h2
    · rename_i u s1 acts h
      have hch := ensure_ok_channel_some env s hcfg h
      split
      · rename_i hnone
        rw [hnone] at hch
        simp at hch
      · split <;> simp
  · unfold createExchange
    dsimp only
    split
    · rename_i e s1 acts h
      have h2 := ensureConnection_no_nullAssertion env s
      rw [h] at h2
      simpa using h2
    · rename_i u s1 acts h
      have hch := ensure_ok_channel_some env s hcfg h
      split
      · rename_i hnone
        rw [hnone] at hch
        simp at hch
      · split <;> simp
  · unfold consume
    dsimp only
    split
    · rename_i e s1 acts h
      have h2 := ensureConnection_no_nullAssertion env s
      rw [h] at h2
      simpa using h2
    · rename_i u s1 acts h
      have hch := ensure_ok_channel_some env s hcfg h
      split
      · rename_i hnone
        rw [hnone] at hch
        simp at hch
      · split <;> simp

/-- C4: disconnect always resolves, never propagating a teardown error; the
close calls it makes form a prefix-ordered subsequence closing the channel
before the connection; a close call is only made for a handle that is
present; and a teardown error from either close is logged. -/
theorem c4_disconnect_contract (env : BrokerEnv) (s : EventsService) :
    (disconnect env s).result = .ok () ∧
    List.Sublist ((disconnect env s).actions.filter Action.isCloseOp)
      [Action.channelCloseCall, Action.connectionCloseCall] ∧
    (s.channel = none → Action.channelCloseCall ∉ (disconnect env s).actions) ∧
    (s.connection = none → Action.connectionCloseCall ∉ (disconnect env s).actions) ∧
    (∀ ch e, s.channel = some ch → env.closeChannel ch = .error e →
      Action.logError "Error disconnecting from RabbitMQ:" ∈ (disconnect env s).actions) ∧
    (∀ conn e, s.connection = some conn → env.closeConnection conn = .error e →
      (s.channel = none ∨ ∃ ch, s.channel = some ch ∧ env.closeChannel ch = .ok ()) →
      Action.logError "Error disconnecting from RabbitMQ:" ∈ (disconnect env s).actions) := by
  refine ⟨?_, ?_, ?_, ?_, ?_, ?_⟩
  · unfold disconnect disconnectConn
    (repeat' split) <;> rfl
  · unfold disconnect disconnectConn
    (repeat' split) <;> simp [List.filter, Action.isCloseOp]
  · intro hch
    unfold disconnect disconnectConn
    (repeat' split) <;> simp_all
  · intro hconn
    unfold disconnect disconnectConn
    (repeat' split) <;> simp_all
  · intro ch e hch hce
    unfold disconnect disconnectConn
    (repeat' split) <;> simp_all
  · intro conn e hconn hce hok
    unfold disconnect disconnectConn
    rcases hok with hnone | ⟨ch, hch, hcok⟩ <;>
      (repeat' split) <;> simp_all

/-- C2: emitEvent always resolves without throwing, in every service state
and broker environment; when the broker is disabled it performs only the
event log and no broker operation; any queue send it ever performs targets
the queue named `events.` followed by the event name with the serialized
payload; and a failure of the delegated send is logged and swallowed. -/
theorem c2_emitEvent_total (env : BrokerEnv) (s : EventsService)
    (name : String) (data : Json) (o : Option MessageOptions) :
    (emitEvent env s name data o).result = .ok () ∧
    (s.rabbitMQEnabled = false →
      (emitEvent env s name data o).actions = [.logInfo ("Event emitted: " ++ name)]) ∧
    (∀ q b po, Action.sendToQueueOp q b po ∈ (emitEvent env s name data o).actions →
      q = "events." ++ name ∧ b = Json.stringify data ∧ po = mkPublishOptions o) ∧
    (s.rabbitMQEnabled = true →
      ∀ e, (sendToQueue env s ("events." ++ name) data o).result = .error e →
        Action.logError ("Failed to send event " ++ name ++ " to RabbitMQ:") ∈
          (emitEvent env s name data o).actions) := by
  refine ⟨?_, ?_, ?_, ?_⟩
  · unfold emitEvent
    dsimp only
    (repeat' split) <;> rfl
  · intro hen
    unfold emitEvent
    dsimp only
    rw [if_neg (by simp [hen])]
  · intro q b po
    unfold emitEvent
    dsimp only
    split
    · split
      · rename_i hen x u s1 acts h
        intro hmem
        rcases List.mem_cons.mp hmem with h1 | h1
        · simp at h1
        · exact sendToQueue_send_chars env s ("events." ++ name) data o q b po (by rw [h]; exact h1)
      · rename_i hen x e s1 acts h
        intro hmem
        rcases List.mem_cons.mp hmem with h1 | h1
        · simp at h1
        · rcases List.mem_append.mp h1 with h2 | h2
          · exact sendToQueue_send_chars env s ("events." ++ name) data o q b po (by rw [h]; exact h2)
          · simp at h2
    · intro hmem
      simp at hmem
  · intro hen e hfail
    unfold emitEvent
    dsimp only
    rw [if_pos hen]
    split
    · rename_i u s1 acts h
      rw [h] at hfail
      simp at hfail
    · rename_i e2 s1 acts h
      simp

/-- C6: sendToQueue and publishToExchange serialize the payload with
JSON.stringify, resolve the publish options with persistence defaulting to
true unless the caller supplies a persistent flag, return exactly the boolean
the broker client returned, and propagate every failure to the caller: a
connection failure from ensureConnection unchanged, and a client send failure
as a broker error (after logging it). -/
theorem c6_send_publish_contract (env : BrokerEnv) (s : EventsService)
    (q ex rk : String) (m : Json) (o : Option MessageOptions) :
    ((mkPublishOptions o).persistent = ((o.getD {}).persistent.getD true)) ∧
    (∀ q' b po, Action.sendToQueueOp q' b po ∈ (sendToQueue env s q m o).actions →
      b = Json.stringify m ∧ po = mkPublishOptions o) ∧
    (∀ ex' rk' b po,
      Action.publishOp ex' rk' b po ∈ (publishToExchange env s ex rk m o).actions →
      b = Json.stringify m ∧ po = mkPublishOptions o) ∧
    (∀ e, (ensureConnection env s).result = .error e →
      (sendToQueue env s q m o).result = .error e ∧
      (publishToExchange env s ex rk m o).result = .error e) ∧
    (∀ ch, (ensureConnection env s).result = .ok () →
      (ensureConnection env s).state.channel = some ch →
      (∀ b, env.sendToQueue ch q (Json.stringify m) (mkPublishOptions o) = .ok b →
        (sendToQueue env s q m o).result = .ok b) ∧
      (∀ e, env.sendToQueue ch q (Json.stringify m) (mkPublishOptions o) = .error e →
        (sendToQueue env s q m o).result = .error (.broker e) ∧
        Action.logError ("Error sending message to queue " ++ q ++ ":") ∈
          (sendToQueue env s q m o).actions) ∧
      (∀ b, env.publish ch ex rk (Json.stringify m) (mkPublishOptions o) = .ok b →
        (publishToExchange env s ex rk m o).result = .ok b) ∧
      (∀ e, env.publish ch ex rk (Json.stringify m) (mkPublishOptions o) = .error e →
        (publishToExchange env s ex rk m o).result = .error (.broker e) ∧
        Action.logError ("Error publishing message to exchange " ++ ex ++ ":") ∈
          (publishToExchange env s ex rk m o).actions)) := by
  refine ⟨rfl, ?_, ?_, ?_, ?_⟩
  · intro q' b po hmem
    exact (sendToQueue_send_chars env s q m o q' b po hmem).2
  · intro ex' rk' b po hmem
    exact (publishToExchange_chars env s ex rk m o ex' rk' b po hmem).2.2
  · intro e herr
    constructor
    · unfold sendToQueue
      dsimp only
      split
      · rename_i e2 s1 acts h
        rw [h] at herr
        simpa using herr
      · rename_i u s1 acts h
        rw [h] at herr
        simp at herr
    · unfold publishToExchange
      dsimp only
      split
      · rename_i e2 s1 acts h
        rw [h] at herr
        simpa using herr
      · rename_i u s1 acts h
        rw [h] at herr
        simp at herr
  · intro ch hok hch
    rcases hres : ensureConnection env s with ⟨r, st, acts⟩
    rcases r with e | u
    · rw [hres] at hok
      simp at hok
    · rw [hres] at hch
      simp only at hch
      refine ⟨?_, ?_, ?_, ?_⟩
      · intro b hsend
        unfold sendToQueue
        rw [hres]
        dsimp only
        simp [hch, hsend]
      · intro e hsend
        unfold sendToQueue
        rw [hres]
        dsimp only
        simp [hch, hsend]
      · intro b hsend
        unfold publishToExchange
        rw [hres]
        dsimp only
        simp [hch, hsend]
      · intro e hsend
        unfold publishToExchange
        rw [hres]
        dsimp only
        simp [hch, hsend]

/-- connectToRabbitMQ emits no consumer-registration action. -/
theorem connectToRabbitMQ_no_consumeOp (env : BrokerEnv) (s : EventsService)
    (q : String) (ro : ResolvedConsumeOptions) :
    Action.consumeOp q ro ∉ (connectToRabbitMQ env s).actions := by
  unfold connectToRabbitMQ
  (repeat' split) <;> simp

/-- ensureConnection emits no consumer-registration action. -/
theorem ensureConnection_no_consumeOp (env : BrokerEnv) (s : EventsService)
    (q : String) (ro : ResolvedConsumeOptions) :
    Action.consumeOp q ro ∉ (ensureConnection env s).actions := by
  unfold ensureConnection
  (repeat' split) <;> simp [connectToRabbitMQ_no_consumeOp]

/-- C5: for every inbound delivery processed by the registered consume
callback, a payload decode failure makes the callback log the error and
reject the message without requeue, never invoking the user handler; a decode
success makes it invoke the handler first, with the decoded content and with
acknowledgement callables all bound to that very message; and the noAck
consume option defaults to false (manual acknowledgement) unless the caller
overrides it, the resolved options being exactly what consume registers. -/
theorem c5_consume_delivery_contract (parse : String → Except String Json)
    (handler : MessageHandler) (m : RawMsg) :
    (∀ e, parse m.content = .error e →
      consumeCallback parse handler (some m) =
        [.logError "Error processing message:", .rejectOp m false] ∧
      ∀ info, Action.handlerInvoked info ∉ consumeCallback parse handler (some m)) ∧
    (∀ c, parse m.content = .ok c →
      (consumeCallback parse handler (some m)).head? =
        some (.handlerInvoked ⟨c, m.fields, m.properties⟩) ∧
      (∀ a ∈ consumeCallback parse handler (some m), ∀ m',
        a.deliveryMsg = some m' → m' = m)) ∧
    ((mkConsumeOptions none).noAck = false) ∧
    (∀ co : ConsumeOptions, co.noAck = none →
      (mkConsumeOptions (some co)).noAck = false) ∧
    (∀ (co : ConsumeOptions) (b : Bool), co.noAck = some b →
      (mkConsumeOptions (some co)).noAck = b) ∧
    (∀ env si qn opts q' ro,
      Action.consumeOp q' ro ∈ (consume env si qn opts).actions →
      q' = qn ∧ ro = mkConsumeOptions opts) := by
  refine ⟨?_, ?_, rfl, ?_, ?_, ?_⟩
  · intro e he
    unfold consumeCallback
    dsimp only
    rw [he]
    exact ⟨rfl, by simp⟩
  · intro c hc
    unfold consumeCallback
    dsimp only
    rw [hc]
    dsimp only
    split <;>
      refine ⟨rfl, ?_⟩ <;>
      · intro a ha m' hdm
        rcases List.mem_cons.mp ha with h1 | h1
        · rw [h1] at hdm
          simp [Action.deliveryMsg] at hdm
        · first
          | (rcases List.mem_map.mp h1 with ⟨cb, _, rfl⟩
             rw [interpretCall_bound] at hdm
             exact (Option.some_inj.mp hdm).symm)
          | (rcases List.mem_append.mp h1 with h2 | h2
             · rcases List.mem_map.mp h2 with ⟨cb, _, rfl⟩
               rw [interpretCall_bound] at hdm
               exact (Option.some_inj.mp hdm).symm
             · rcases List.mem_cons.mp h2 with h3 | h3
               · rw [h3] at hdm
                 simp [Action.deliveryMsg] at hdm
               · rw [List.mem_singleton.mp h3] at hdm
                 exact (Option.some_inj.mp hdm).symm)
  · intro co h
    simp [mkConsumeOptions, h]
  · intro co b h
    simp [mkConsumeOptions, h]
  · intro env si qn opts q' ro
    unfold consume
    dsimp only
    split
    · rename_i e s1 acts h
      intro hmem
      have h2 := ensureConnection_no_consumeOp env si q' ro
      rw [h] at h2
      exact absurd hmem h2
    · rename_i u s1 acts h
      have hno : Action.consumeOp q' ro ∉ acts := by
        have h2 := ensureConnection_no_consumeOp env si q' ro
        rw [h] at h2
        exact h2
      split
      · intro hmem
        exact absurd hmem hno
      · split <;>
        · intro hmem
          rcases List.mem_append.mp hmem with h1 | h1
          · exact absurd h1 hno
          · simpa using h1

/-- C10: when the decoded delivery handler throws synchronously, the consume
callback catch block logs the error and rejects that message without requeue,
after whatever acknowledgement calls the handler already made; when the
handler returns normally, the callback adds nothing after the handler calls,
so an asynchronous rejection of the returned promise is not caught and
triggers no rejection of the message. -/
theorem c10_handler_sync_throw (parse : String → Except String Json)
    (handler : MessageHandler) (m : RawMsg) (c : Json)
    (hp : parse m.content = .ok c) :
    (∀ e, (handler ⟨c, m.fields, m.properties⟩).outcome = .throwsEx e →
      consumeCallback parse handler (some m) =
        .handlerInvoked ⟨c, m.fields, m.properties⟩ ::
          (handler ⟨c, m.fields, m.properties⟩).calls.map (interpretCall m) ++
          [.logError "Error processing message:", .rejectOp m false]) ∧
    (∀ b, (handler ⟨c, m.fields, m.properties⟩).outcome = .returns b →
      consumeCallback parse handler (some m) =
        .handlerInvoked ⟨c, m.fields, m.properties⟩ ::
          (handler ⟨c, m.fields, m.properties⟩).calls.map (interpretCall m)) := by
  constructor
  · intro e he
    unfold consumeCallback
    dsimp only
    rw [hp]
    dsimp only
    split <;> simp_all
  · intro b hb
    unfold consumeCallback
    dsimp only
    rw [hp]
    dsimp only
    split <;> simp_all

/-- C1 counterexample: on a freshly connected service, firing the close
observer leaves both cached handles present (they are not set to absent), and
the next ensureConnection call returns the cached pair immediately with no
dial attempt, contradicting the claim that the close observer invalidates the
handle so that ensureConnection re-dials. -/
theorem c1_counterexample_close_observer_inert :
    (onConnectionClose testConnectedState).1.connection = some ⟨0⟩ ∧
    (onConnectionClose testConnectedState).1.channel = some ⟨0⟩ ∧
    ensureConnection testEnv (onConnectionClose testConnectedState).1 =
      ⟨.ok (), testConnectedState, []⟩ := by
  exact ⟨rfl, rfl, rfl⟩

/-- C1 amended: when the close observer fires it only logs a warning: the
cached connection and channel are left in place, and a subsequent
ensureConnection call on a service holding both handles returns immediately
with no dial attempt.  The service therefore has no automatic invalidation of
the cached handle on connection close; re-dialing happens only when a handle
is already absent for another reason. -/
theorem c1_amended_close_observer_only_logs (env : BrokerEnv) (s : EventsService)
    (hen : s.rabbitMQEnabled = true) (hc : s.connection.isSome)
    (hch : s.channel.isSome) :
    onConnectionClose s = (s, [.logWarn "RabbitMQ connection closed"]) ∧
    ensureConnection env (onConnectionClose s).1 = ⟨.ok (), s, []⟩ ∧
    countConnectAttempts (ensureConnection env (onConnectionClose s).1).actions = 0 := by
  obtain ⟨c, hc2⟩ := Option.isSome_iff_exists.mp hc
  obtain ⟨d, hch2⟩ := Option.isSome_iff_exists.mp hch
  refine ⟨rfl, ?_, ?_⟩
  · simp [ensureConnection, onConnectionClose, hen, hc2, hch2]
  · simp [ensureConnection, onConnectionClose, hen, hc2, hch2, countConnectAttempts]

/-- C8 counterexample: when the channel close throws during disconnect, the
disconnect call still completes (the error is swallowed), but both cached
handles survive, and the next ensureConnection reuses them without re-dialing
— contradicting the claim that after a completed disconnect the next
ensureConnection always re-dials. -/
theorem c8_counterexample_stale_after_failed_teardown :
    (disconnect testEnvBadClose testConnectedState).result = .ok () ∧
    (disconnect testEnvBadClose testConnectedState).state.channel = some ⟨0⟩ ∧
    (disconnect testEnvBadClose testConnectedState).state.connection = some ⟨0⟩ ∧
    ensureConnection testEnv (disconnect testEnvBadClose testConnectedState).state =
      ⟨.ok (), (disconnect testEnvBadClose testConnectedState).state, []⟩ := by
  exact ⟨rfl, rfl, rfl, rfl⟩

/-- C8 amended: after a disconnect in which the channel close does not throw,
the cached channel is cleared, so the next ensureConnection call on an
enabled service re-dials the broker and, as far as the dial and channel-open
succeed, caches the freshly created channel; if the channel close throws
during disconnect, the stale handles are retained instead and reused. -/
theorem c8_amended_redial_after_clean_disconnect (config : Option EventsConfig)
    (env env2 : BrokerEnv) (s : EventsService) (hr : ReachableFrom config s)
    (hen : s.rabbitMQEnabled = true)
    (hclose : ∀ ch, s.channel = some ch → env.closeChannel ch = .ok ()) :
    (disconnect env s).state.channel = none ∧
    ∃ cfg, (disconnect env s).state.config.rabbitmq = some cfg ∧
      Action.connectAttempt cfg.url ∈
        (ensureConnection env2 (disconnect env s).state).actions ∧
      (∀ conn, env2.connect cfg.url = .ok conn →
        Action.createChannelCall ∈
          (ensureConnection env2 (disconnect env s).state).actions ∧
        (∀ ch, env2.createChannel conn = .ok ch →
          (ensureConnection env2 (disconnect env s).state).state.channel = some ch)) := by
  have hinv := reachable_flags hr
  have hchannel := disconnect_channel_none env s hclose
  have hflags := disconnect_flags env s
  have hen2 : (disconnect env s).state.rabbitMQEnabled = true := by
    rw [hflags.2]
    exact hen
  have hredial := ensureConnection_redial env2 (disconnect env s).state hen2 hchannel
  have hcfg : (disconnect env s).state.config.rabbitmq.isSome := by
    rw [hflags.1, hinv.1, ← hinv.2]
    exact hen
  obtain ⟨cfg0, hcfg0⟩ := Option.isSome_iff_exists.mp hcfg
  refine ⟨hchannel, cfg0, hcfg0, ?_, ?_⟩
  · rw [hredial]
    exact (connectToRabbitMQ_progress env2 _ cfg0 hcfg0).1
  · intro conn hconn
    rw [hredial]
    have hp := (connectToRabbitMQ_progress env2 _ cfg0 hcfg0).2 conn hconn
    exact ⟨hp.1, hp.2.2⟩

/-! ## Witnesses: the claim theorems applied at concrete inputs -/

/-- Witness for the C7 theorem at the freshly constructed disabled service,
discharging the reachability hypothesis with the construction step. -/
theorem c7_status_queries_witness :
    isRabbitMQEnabled (EventsService.new none) = false ∧
    isConnected (EventsService.new none) = false :=
  ⟨(c7_status_queries none (EventsService.new none) .init).1,
   (c7_status_queries none (EventsService.new none) .init).2.2 rfl⟩

/-- Witness for the C3 theorem on a fresh enabled service facing an
unreachable broker: exactly one dial attempt, and the dial error is
rethrown. -/
theorem c3_ensureConnection_contract_witness :
    countConnectAttempts
      (ensureConnection testEnvUnreachable
        (EventsService.new (some testEventsConfig))).actions = 1 ∧
    (ensureConnection testEnvUnreachable
      (EventsService.new (some testEventsConfig))).result =
      .error (.broker "ECONNREFUSED") :=
  ⟨((c3_ensureConnection_contract (some testEventsConfig) testEnvUnreachable
      (EventsService.new (some testEventsConfig)) .init).2.2 rfl rfl).1,
   ((c3_ensureConnection_contract (some testEventsConfig) testEnvUnreachable
      (EventsService.new (some testEventsConfig)) .init).2.2 rfl rfl).2
     testConfig "ECONNREFUSED" rfl rfl⟩

/-- Witness for the C9 theorem on the connected test service. -/
theorem c9_no_null_channel_assertions_witness :
    (ensureConnection testEnv testConnectedState).state.connection.isSome ∧
    (ensureConnection testEnv testConnectedState).state.channel.isSome ∧
    (sendToQueue testEnv testConnectedState "q1" .null none).result ≠
      .error .nullAssertion :=
  ⟨((c9_no_null_channel_assertions (some testEventsConfig) testEnv
      testConnectedState "q1" "ex1" "rk1" "q2" .null none none
      { type := .direct } none (.moduleInitStep testEnv .init)).1 rfl).2,
   ((c9_no_null_channel_assertions (some testEventsConfig) testEnv
      testConnectedState "q1" "ex1" "rk1" "q2" .null none none
      { type := .direct } none (.moduleInitStep testEnv .init)).1 rfl).1,
   (c9_no_null_channel_assertions (some testEventsConfig) testEnv
      testConnectedState "q1" "ex1" "rk1" "q2" .null none none
      { type := .direct } none (.moduleInitStep testEnv .init)).2.1⟩

/-- Witness for the C4 theorem on a teardown whose channel close throws: the
call still resolves and the error is logged. -/
theorem c4_disconnect_contract_witness :
    (disconnect testEnvBadClose testConnectedState).result = .ok () ∧
    Action.logError "Error disconnecting from RabbitMQ:" ∈
      (disconnect testEnvBadClose testConnectedState).actions :=
  ⟨(c4_disconnect_contract testEnvBadClose testConnectedState).1,
   (c4_disconnect_contract testEnvBadClose testConnectedState).2.2.2.2.1
     ⟨0⟩ "channel close failed" rfl rfl⟩

/-- Witness for the C2 theorem on a disabled service: emitEvent resolves and
performs only the event log. -/
theorem c2_emitEvent_total_witness :
    (emitEvent testEnv (EventsService.new none) "user.created" .null none).result =
      .ok () ∧
    (emitEvent testEnv (EventsService.new none) "user.created" .null none).actions =
      [.logInfo ("Event emitted: " ++ "user.created")] :=
  ⟨(c2_emitEvent_total testEnv (EventsService.new none) "user.created" .null none).1,
   (c2_emitEvent_total testEnv (EventsService.new none) "user.created" .null none).2.1
     rfl⟩

/-- Witness for the C6 theorem on the connected test service: the send
returns the boolean the client returned. -/
theorem c6_send_publish_contract_witness :
    (sendToQueue testEnv testConnectedState "q1" .null none).result = .ok true :=
  ((c6_send_publish_contract testEnv testConnectedState "q1" "ex1" "rk1" .null
      none).2.2.2.2 ⟨0⟩ rfl rfl).1 true rfl

/-- Witness for the C5 theorem on a malformed inbound message: the callback
logs and rejects without requeue. -/
theorem c5_consume_delivery_contract_witness :
    consumeCallback testEnv.jsonParse testHandler (some testBadMsg) =
      [.logError "Error processing message:", .rejectOp testBadMsg false] :=
  ((c5_consume_delivery_contract testEnv.jsonParse testHandler testBadMsg).1
    "SyntaxError" rfl).1

/-- Witness for the C10 theorem on a handler that throws synchronously: the
callback logs and rejects the delivery without requeue. -/
theorem c10_handler_sync_throw_witness :
    consumeCallback testEnv.jsonParse testThrowingHandler (some testGoodMsg) =
      .handlerInvoked ⟨.null, testGoodMsg.fields, testGoodMsg.properties⟩ ::
        (testThrowingHandler
          ⟨.null, testGoodMsg.fields, testGoodMsg.properties⟩).calls.map
          (interpretCall testGoodMsg) ++
        [.logError "Error processing message:", .rejectOp testGoodMsg false] :=
  (c10_handler_sync_throw testEnv.jsonParse testThrowingHandler testGoodMsg .null
    rfl).1 "boom" rfl

/-- Witness for the amended C1 theorem on the connected test service. -/
theorem c1_amended_close_observer_only_logs_witness :
    onConnectionClose testConnectedState =
      (testConnectedState, [.logWarn "RabbitMQ connection closed"]) ∧
    ensureConnection testEnv (onConnectionClose testConnectedState).1 =
      ⟨.ok (), testConnectedState, []⟩ ∧
    countConnectAttempts
      (ensureConnection testEnv (onConnectionClose testConnectedState).1).actions = 0 :=
  c1_amended_close_observer_only_logs testEnv testConnectedState rfl rfl rfl

/-- Witness for the amended C8 theorem: a clean disconnect of the connected
test service clears the channel, and the following ensureConnection dials
again. -/
theorem c8_amended_redial_witness :
    (disconnect testEnv testConnectedState).state.channel = none ∧
    ∃ cfg, (disconnect testEnv testConnectedState).state.config.rabbitmq = some cfg ∧
      Action.connectAttempt cfg.url ∈
        (ensureConnection testEnv (disconnect testEnv testConnectedState).state).actions ∧
      (∀ conn, testEnv.connect cfg.url = .ok conn →
        Action.createChannelCall ∈
          (ensureConnection testEnv (disconnect testEnv testConnectedState).state).actions ∧
        (∀ ch, testEnv.createChannel conn = .ok ch →
          (ensureConnection testEnv
            (disconnect testEnv testConnectedState).state).state.channel = some ch)) :=
  c8_amended_redial_after_clean_disconnect (some testEventsConfig) testEnv testEnv
    testConnectedState (.moduleInitStep testEnv .init) rfl (fun _ _ => rfl)

end LibNestjsEvents
